import Mathlib

/-!
Shallow embedding of `pysot/models/model_builder.py` (class `ModelBuilder`).

Tensor computations are represented symbolically: the backbone, neck, rpn
head, mask head and refine head are external networks, so their applications
are modelled as free constructors of an inductive type `T` of symbolic
tensors.  The mutable attributes of the `ModelBuilder` object
(`self.zf`, `self.xf`, `self.mask_corr_feature`, `self.xf_refine`) form the
`State`; an attribute that has never been assigned is `none`, and reading it
raises `AttributeError`, as `nn.Module.__getattr__` does in Python.  A local
variable that the control flow may leave unbound is modelled the same way,
with `UnboundLocalError` on the read.  Python evaluates call arguments left
to right, so in `self.rpn_head(self.zf, xf_n)` the attribute `self.zf` is
read before the local `xf_n`; the embedding keeps that order.  Methods that
can raise return `Except Err`, paired with the post-state when the source
method mutates attributes before the raising point (the mutation persists in
Python, so the embedding keeps the partially updated state on errors).
-/

namespace ModelBuilder

/-- Python attribute and local-variable names appearing in the errors that
the methods of `ModelBuilder` can raise. -/
inductive PyName where
  | zf
  | xf
  | xf_n
  | mask_corr_feature
  | neck
  | rpn_head
  | mask_head
  | refine_head
deriving DecidableEq

/-- Python runtime errors the methods can raise: reading a never-assigned
local, reading a never-assigned attribute, and the `TypeError` raised by
`float * None` in the mask branch of `forward`. -/
inductive Err where
  | unboundLocal : PyName → Err
  | attributeError : PyName → Err
  | typeError : Err
deriving DecidableEq

/-- Whether an error is an `UnboundLocalError`. -/
def Err.isUnboundLocal : Err → Bool
  | .unboundLocal _ => true
  | _ => false

/-- Symbolic tensors.  Each constructor records one opaque tensor operation
of the source: `backboneApp t` is `self.backbone(t)` (a list of multi-scale
features), `lastOf` is `[-1]` indexing, `allButLast` is `[:-1]` slicing,
`neckApp` is `self.neck(_)`, `rpnCls`/`rpnLoc` are the two outputs of
`self.rpn_head(_, _)`, `maskOut`/`maskCorr` the two outputs of
`self.mask_head(_, _)`, `refineOut` is `self.refine_head(_, _, pos)`, and
`view5`, `permuteDims`, `contiguousT`, `logSoftmaxDim4` are the four steps
of `log_softmax`.  `cuda` is `.cuda()`. -/
inductive T where
  | inp : Nat → T
  | cuda : T → T
  | backboneApp : T → T
  | lastOf : T → T
  | allButLast : T → T
  | neckApp : T → T
  | rpnCls : T → T → T
  | rpnLoc : T → T → T
  | maskOut : T → T → T
  | maskCorr : T → T → T
  | refineOut : T → T → Nat → T
  | view5 : T → T
  | permuteDims : T → T
  | contiguousT : T → T
  | logSoftmaxDim4 : T → T
deriving DecidableEq

/-- Symbolic scalar loss expressions: `selCE` is
`select_cross_entropy_loss`, `wL1` is `weight_l1_loss`, `scale w e` is the
multiplication of a loss by a config weight, `add` is addition of losses. -/
inductive LossE where
  | selCE : T → T → LossE
  | wL1 : T → T → T → LossE
  | scale : Rat → LossE → LossE
  | add : LossE → LossE → LossE
deriving DecidableEq

/-- The configuration fields of `cfg` that `model_builder.py` reads:
`cfg.MASK.MASK`, `cfg.ADJUST.ADJUST`, `cfg.REFINE.REFINE`, and the three
training loss weights. -/
structure Config where
  mask : Bool
  adjust : Bool
  refine : Bool
  clsWeight : Rat
  locWeight : Rat
  maskWeight : Rat
deriving DecidableEq

/-- Which submodules the `ModelBuilder` object owns after `__init__`
(`self.backbone`, `self.neck`, `self.rpn_head`, `self.mask_head`,
`self.refine_head`); `true` means the attribute exists. -/
structure Modules where
  backbone : Bool
  neck : Bool
  rpn_head : Bool
  mask_head : Bool
  refine_head : Bool
deriving DecidableEq

/-- The mutable state of a `ModelBuilder` object: its submodules and the
four tensor attributes the methods assign.  `none` models an attribute that
has never been assigned. -/
structure State where
  modules : Modules
  zf : Option T
  xf : Option T
  mask_corr_feature : Option T
  xf_refine : Option T
deriving DecidableEq

/-- The submodules built by `ModelBuilder.__init__`: backbone and rpn head
always, neck iff `cfg.ADJUST.ADJUST`, mask head iff `cfg.MASK.MASK`, refine
head iff `cfg.MASK.MASK` and `cfg.REFINE.REFINE`. -/
def initModules (cfg : Config) : Modules where
  backbone := true
  neck := cfg.adjust
  rpn_head := true
  mask_head := cfg.mask
  refine_head := cfg.mask && cfg.refine

/-- The state of a freshly constructed `ModelBuilder`: submodules from
`initModules`, no tensor attribute assigned yet. -/
def initState (cfg : Config) : State where
  modules := initModules cfg
  zf := none
  xf := none
  mask_corr_feature := none
  xf_refine := none

/-- `ModelBuilder.template(z)`: computes `zf = backbone(z)`, takes `zf[-1]`
under the mask flag, applies the neck under the adjust flag, and stores the
result into `self.zf`.  The Python method returns `None`; the embedding
returns only the updated state. -/
def template (cfg : Config) (s : State) (z : T) : State :=
  let zf := T.backboneApp z
  let zf := if cfg.mask then T.lastOf zf else zf
  let zf := if cfg.adjust then T.neckApp zf else zf
  { s with zf := some zf }

/-- The dictionary returned by `ModelBuilder.track`: exactly the keys
`cls`, `loc` and `mask`; the value at `mask` is `None` (`Option.none`) when
the mask flag is unset. -/
structure TrackOut where
  cls : T
  loc : T
  mask : Option T
deriving DecidableEq

/-- `ModelBuilder.track(x)`.  `xf_local = backbone(x)`; under the mask flag
`self.xf = xf_local[:-1]` and the local `xf = xf_local[-1]` are set; under
the adjust flag the local `xf_n = neck(xf)` is computed, raising
`UnboundLocalError` on `xf` when the mask flag is unset; then
`cls, loc = rpn_head(self.zf, xf_n)`, where `self.zf` is read before the
local `xf_n` (Python argument order), raising `AttributeError` when
`template` never ran and `UnboundLocalError` on `xf_n` when the adjust flag
is unset; under the mask flag `mask, self.mask_corr_feature =
mask_head(self.zf, xf_n)`; finally the result dictionary is built.
Attribute assignments made before a raise persist in the returned state. -/
def track (cfg : Config) (s : State) (x : T) : Except Err TrackOut × State :=
  let xf_local := T.backboneApp x
  let s1 := if cfg.mask then { s with xf := some (T.allButLast xf_local) } else s
  let xfOpt : Option T := if cfg.mask then some (T.lastOf xf_local) else none
  if cfg.adjust then
    match xfOpt with
    | none => (Except.error (Err.unboundLocal PyName.xf), s1)
    | some xfv =>
      let xf_n := T.neckApp xfv
      match s1.zf with
      | none => (Except.error (Err.attributeError PyName.zf), s1)
      | some zfv =>
        if cfg.mask then
          (Except.ok
            { cls := T.rpnCls zfv xf_n
              loc := T.rpnLoc zfv xf_n
              mask := some (T.maskOut zfv xf_n) },
           { s1 with mask_corr_feature := some (T.maskCorr zfv xf_n) })
        else
          (Except.ok
            { cls := T.rpnCls zfv xf_n
              loc := T.rpnLoc zfv xf_n
              mask := none }, s1)
  else
    match s1.zf with
    | none => (Except.error (Err.attributeError PyName.zf), s1)
    | some _ => (Except.error (Err.unboundLocal PyName.xf_n), s1)

/-- `ModelBuilder.mask_refine(pos) = self.refine_head(self.xf,
self.mask_corr_feature, pos)`: Python evaluates the callee first, so the
attribute `self.refine_head` is read before the arguments and raises
`AttributeError` when `__init__` did not build a refine head; then it reads
the attributes `self.xf` and `self.mask_corr_feature` (in that order), both
of which are assigned by `track`, and never reads `self.zf`. -/
def mask_refine (s : State) (pos : Nat) : Except Err T :=
  if !s.modules.refine_head then Except.error (Err.attributeError PyName.refine_head)
  else
    match s.xf with
    | none => Except.error (Err.attributeError PyName.xf)
    | some xfv =>
      match s.mask_corr_feature with
      | none => Except.error (Err.attributeError PyName.mask_corr_feature)
      | some mc => Except.ok (T.refineOut xfv mc pos)

/-- Modelled from the spec for the refinement comparison in claim C7: the
spec says `mask_refine(pos)` computes its refined mask from the cached
template embedding (`self.zf`) together with the cached mask correlation
feature.  This definition follows those words; it is compared against
`mask_refine`, which embeds the source and reads `self.xf` instead. -/
def mask_refine_spec (s : State) (pos : Nat) : Except Err T :=
  match s.zf with
  | none => Except.error (Err.attributeError PyName.zf)
  | some zfv =>
    match s.mask_corr_feature with
    | none => Except.error (Err.attributeError PyName.mask_corr_feature)
    | some mc => Except.ok (T.refineOut zfv mc pos)

/-- `ModelBuilder.log_softmax(cls)`: `view` to five dimensions, `permute`,
`contiguous`, then `F.log_softmax` along dimension 4. -/
def log_softmax (cls : T) : T :=
  T.logSoftmaxDim4 (T.contiguousT (T.permuteDims (T.view5 cls)))

/-- The training batch dictionary consumed by `ModelBuilder.forward`. -/
structure TrainData where
  template : T
  search : T
  label_cls : T
  label_loc : T
  label_loc_weight : T
deriving DecidableEq

/-- The outputs dictionary built by `ModelBuilder.forward`: `total_loss`,
`cls_loss`, `loc_loss`, and a `mask_loss` key only when the mask branch
completes (`none` models an absent key). -/
structure Outputs where
  total_loss : LossE
  cls_loss : LossE
  loc_loss : LossE
  mask_loss : Option LossE
deriving DecidableEq

/-- `ModelBuilder.forward(data)`: moves the batch to the GPU, runs the
backbone on template and search, under the mask flag keeps only the last
features and stores `self.xf_refine = xf[:-1]`, applies the neck under the
adjust flag, runs the rpn head, computes `cls_loss` (cross entropy on the
log-softmaxed classification) and `loc_loss` (weighted L1), and builds the
outputs dictionary with `total_loss = CLS_WEIGHT * cls_loss + LOC_WEIGHT *
loc_loss`.  Under the mask flag it then runs the mask head (storing
`self.mask_corr_feature`), sets `mask_loss = None`, and evaluates
`MASK_WEIGHT * mask_loss`, which raises `TypeError` (`float * None`), so
the dictionary is never returned in that case; the attribute assignments
made before the raise persist. -/
def forward (cfg : Config) (s : State) (d : TrainData) : Except Err Outputs × State :=
  let tmpl := T.cuda d.template
  let srch := T.cuda d.search
  let label_cls := T.cuda d.label_cls
  let label_loc := T.cuda d.label_loc
  let label_loc_weight := T.cuda d.label_loc_weight
  let zf0 := T.backboneApp tmpl
  let xf0 := T.backboneApp srch
  let s1 := if cfg.mask then { s with xf_refine := some (T.allButLast xf0) } else s
  let zf1 := if cfg.mask then T.lastOf zf0 else zf0
  let xf1 := if cfg.mask then T.lastOf xf0 else xf0
  let zf2 := if cfg.adjust then T.neckApp zf1 else zf1
  let xf2 := if cfg.adjust then T.neckApp xf1 else xf1
  let cls := T.rpnCls zf2 xf2
  let loc := T.rpnLoc zf2 xf2
  let cls_loss := LossE.selCE (log_softmax cls) label_cls
  let loc_loss := LossE.wL1 loc label_loc label_loc_weight
  let total := LossE.add (LossE.scale cfg.clsWeight cls_loss)
    (LossE.scale cfg.locWeight loc_loss)
  if cfg.mask then
    (Except.error Err.typeError,
     { s1 with mask_corr_feature := some (T.maskCorr zf2 xf2) })
  else
    (Except.ok
      { total_loss := total
        cls_loss := cls_loss
        loc_loss := loc_loss
        mask_loss := none }, s1)

/-- `os.path.join(dir, n)` as it is used in `save_script`: slash
concatenation. -/
def pathJoin (dir n : String) : String := dir ++ "/" ++ n

/-- `ModelBuilder.save_script(save_path)`: scripts and saves the backbone
as `back_bone.pt` unconditionally, then tests `if self.neck:`,
`if self.rpn_head:`, `if self.mask_head:` and (inside the mask branch)
`if self.refine_head:`.  Each test reads the attribute, so a missing
optional submodule raises `AttributeError`; a present submodule is an
`nn.Module` and hence truthy, so its file is saved.  The result lists the
saved file paths. -/
def save_script (save_path : String) (m : Modules) : Except Err (List String) :=
  let j : String → String := fun n => pathJoin save_path n
  let files := [j ("back_bone.pt")]
  if !m.neck then Except.error (Err.attributeError PyName.neck)
  else
    let files := files ++ [j ("neck.pt")]
    if !m.rpn_head then Except.error (Err.attributeError PyName.rpn_head)
    else
      let files := files ++ [j ("rpn_head.pt")]
      if !m.mask_head then Except.error (Err.attributeError PyName.mask_head)
      else
        let files := files ++ [j ("mask_head.pt")]
        if !m.refine_head then Except.error (Err.attributeError PyName.refine_head)
        else Except.ok (files ++ [j ("refine_head.pt")])

/-- A configuration with all optional components enabled (SiamMask-style). -/
def cfgBoth : Config where
  mask := true
  adjust := true
  refine := true
  clsWeight := 1
  locWeight := 2
  maskWeight := 3

/-- A configuration with every optional flag unset. -/
def cfgNone : Config where
  mask := false
  adjust := false
  refine := false
  clsWeight := 1
  locWeight := 2
  maskWeight := 3

/-- A configuration with the adjust flag but no mask head
(SiamRPN-style). -/
def cfgNoMask : Config where
  mask := false
  adjust := true
  refine := false
  clsWeight := 1
  locWeight := 2
  maskWeight := 3

/-- A state for `cfgNone` in which a template embedding is cached. -/
def sZf : State :=
  { initState cfgNone with zf := some (T.inp 7) }

/-- A state for `cfgBoth` in which a template embedding is cached. -/
def sZfB : State :=
  { initState cfgBoth with zf := some (T.inp 7) }

/-- A state in which the cached template embedding and the search features
cached by `track` are distinct tensors. -/
def s7 : State :=
  { modules := initModules cfgBoth
    zf := some (T.inp 0)
    xf := some (T.inp 1)
    mask_corr_feature := some (T.inp 2)
    xf_refine := none }

/-- A concrete training batch. -/
def dataEx : TrainData where
  template := T.inp 10
  search := T.inp 11
  label_cls := T.inp 12
  label_loc := T.inp 13
  label_loc_weight := T.inp 14

/-- The adjusted template feature `forward` computes on `dataEx` under
`cfgNoMask`. -/
def zfEx : T := T.neckApp (T.backboneApp (T.cuda dataEx.template))

/-- The adjusted search feature `forward` computes on `dataEx` under
`cfgNoMask`. -/
def xfEx : T := T.neckApp (T.backboneApp (T.cuda dataEx.search))

/-- The classification loss `forward` computes on `dataEx` under
`cfgNoMask`. -/
def clsLossEx : LossE :=
  LossE.selCE (log_softmax (T.rpnCls zfEx xfEx)) (T.cuda dataEx.label_cls)

/-- The localization loss `forward` computes on `dataEx` under
`cfgNoMask`. -/
def locLossEx : LossE :=
  LossE.wL1 (T.rpnLoc zfEx xfEx) (T.cuda dataEx.label_loc)
    (T.cuda dataEx.label_loc_weight)

/-- Helper: the value part of `track` depends on the state only through the
cached template embedding `self.zf`. -/
theorem track_fst_congr_zf (cfg : Config) (s s2 : State) (x : T)
    (h : s.zf = s2.zf) :
    (track cfg s x).fst = (track cfg s2 x).fst := by
  have h2 : s2.zf = s.zf := h.symm
  cases hm : cfg.mask <;> cases ha : cfg.adjust <;>
    cases hz : s.zf <;>
      simp [track, hm, ha, hz, h2.trans hz]

/-- Claim C2: `template(z)` stores into `self.zf` the backbone embedding of
`z`, reduced to its last element when the mask flag is set and passed
through the neck when the adjust flag is set, changes nothing else, and
returns no value (the embedding returns only the state). -/
theorem template_caches_embedding (cfg : Config) (s : State) (z : T) :
    template cfg s z =
      { s with
          zf := some ((if cfg.adjust then T.neckApp else id)
                  ((if cfg.mask then T.lastOf else id) (T.backboneApp z))) } := by
  cases hm : cfg.mask <;> cases ha : cfg.adjust <;>
    simp [template, hm, ha]

/-- Claim C1, counterexample: with both optional flags unset (and even with
a template embedding cached), `track` raises an unbound-local error on
`xf_n` instead of returning the result dictionary, so it is not the case
that `track` returns the dictionary for every configuration. -/
theorem track_no_flags_no_dict :
    (track cfgNone sZf (T.inp 3)).fst
      = Except.error (Err.unboundLocal PyName.xf_n) := rfl

/-- Claim C1, amended: for every configuration with both `cfg.MASK.MASK`
and `cfg.ADJUST.ADJUST` set, and every state with a cached embedding
`self.zf`, `track(x)` returns the dictionary with exactly the keys `cls`,
`loc` and `mask`, where `cls` and `loc` are the two outputs of the rpn head
on `self.zf` and the neck-adjusted search embedding from the backbone, and
`mask` is the first output of the mask head on the same pair (never
`None`). -/
theorem track_returns_outputs (cfg : Config) (s : State) (x : T) (zfv : T)
    (hm : cfg.mask = true) (ha : cfg.adjust = true) (hz : s.zf = some zfv) :
    (track cfg s x).fst = Except.ok
      { cls := T.rpnCls zfv (T.neckApp (T.lastOf (T.backboneApp x)))
        loc := T.rpnLoc zfv (T.neckApp (T.lastOf (T.backboneApp x)))
        mask := some (T.maskOut zfv (T.neckApp (T.lastOf (T.backboneApp x)))) } := by
  simp [track, hm, ha, hz]

/-- Witness for the amended claim C1 at a concrete configuration, state and
input. -/
theorem track_returns_outputs_witness :
    (track cfgBoth sZfB (T.inp 3)).fst = Except.ok
      { cls := T.rpnCls (T.inp 7) (T.neckApp (T.lastOf (T.backboneApp (T.inp 3))))
        loc := T.rpnLoc (T.inp 7) (T.neckApp (T.lastOf (T.backboneApp (T.inp 3))))
        mask := some (T.maskOut (T.inp 7)
          (T.neckApp (T.lastOf (T.backboneApp (T.inp 3))))) } :=
  track_returns_outputs cfgBoth sZfB (T.inp 3) (T.inp 7) rfl rfl rfl

/-- Claim C3: after `__init__`, backbone and rpn head always exist, the
neck exists iff the adjust flag is set, the mask head iff the mask flag is
set, the refine head iff both mask and refine flags are set; and none of
`template`, `track` or `forward` changes the set of submodules
(`mask_refine`, `log_softmax` and `save_script` assign no attribute at all
in the source, so the embedding gives them no state update). -/
theorem submodules_iff_flags (cfg : Config) :
    ((initState cfg).modules.backbone = true
      ∧ (initState cfg).modules.rpn_head = true
      ∧ (initState cfg).modules.neck = cfg.adjust
      ∧ (initState cfg).modules.mask_head = cfg.mask
      ∧ (initState cfg).modules.refine_head = (cfg.mask && cfg.refine))
    ∧ (∀ s z, (template cfg s z).modules = s.modules)
    ∧ (∀ s x, (track cfg s x).snd.modules = s.modules)
    ∧ (∀ s d, (forward cfg s d).snd.modules = s.modules) := by
  refine ⟨⟨rfl, rfl, rfl, rfl, rfl⟩, ?_, ?_, ?_⟩
  · intro s z
    cases hm : cfg.mask <;> cases ha : cfg.adjust <;> simp [template, hm, ha]
  · intro s x
    cases hm : cfg.mask <;> cases ha : cfg.adjust <;> cases hz : s.zf <;>
      simp [track, hm, ha, hz]
  · intro s d
    cases hm : cfg.mask <;> cases ha : cfg.adjust <;> simp [forward, hm, ha]

/-- Claim C4: evaluation of `forward` at a concrete batch.  Without the
mask flag the outputs dictionary is returned and `total_loss` is
`CLS_WEIGHT * cls_loss + LOC_WEIGHT * loc_loss` as the claim states; with
the mask flag set the mask branch sets `mask_loss = None` (the `TODO` in
the source) and `MASK_WEIGHT * None` raises `TypeError`, so the weighted
mask loss the claim describes is never added. -/
theorem forward_loss_behavior :
    (forward cfgNoMask (initState cfgNoMask) dataEx).fst
      = Except.ok
          { total_loss := LossE.add (LossE.scale (1 : Rat) clsLossEx)
              (LossE.scale (2 : Rat) locLossEx)
            cls_loss := clsLossEx
            loc_loss := locLossEx
            mask_loss := none }
    ∧ (forward cfgBoth (initState cfgBoth) dataEx).fst
        = Except.error Err.typeError :=
  ⟨rfl, rfl⟩

/-- Claim C5, counterexample: with the optional submodules absent (all
flags unset), `save_script` raises an `AttributeError` reading `self.neck`
instead of completing, contradicting the claim that it completes without
error in such configurations. -/
theorem save_script_missing_neck :
    save_script ("out") (initModules cfgNone)
      = Except.error (Err.attributeError PyName.neck) := rfl

/-- Claim C5, amended: `save_script` exports the backbone as
`back_bone.pt` and each further submodule as its `.pt` file, but the
presence tests read the optional attributes unconditionally, so it
completes (saving all five files) exactly when the adjust, mask and refine
flags are all set; otherwise the read of the first missing submodule
raises an `AttributeError`. -/
theorem save_script_requires_all (p : String) (cfg : Config) :
    save_script p (initModules cfg) =
      if cfg.adjust then
        if cfg.mask then
          if cfg.refine then
            Except.ok [pathJoin p ("back_bone.pt"), pathJoin p ("neck.pt"),
              pathJoin p ("rpn_head.pt"), pathJoin p ("mask_head.pt"),
              pathJoin p ("refine_head.pt")]
          else Except.error (Err.attributeError PyName.refine_head)
        else Except.error (Err.attributeError PyName.mask_head)
      else Except.error (Err.attributeError PyName.neck) := by
  cases ha : cfg.adjust <;> cases hm : cfg.mask <;> cases hr : cfg.refine <;>
    simp [save_script, initModules, ha, hm, hr]

/-- Claim C6: in the configuration where `track` can complete (mask and
adjust flags set), (1) after `template(z)` the `track` result is built from
exactly the embedding `template` stored, and (2) with no preceding
`template` call `track` is not rejected up front — it runs the backbone and
stores `self.xf` — and fails precisely at the read of the absent attribute
`self.zf`. -/
theorem track_requires_template (cfg : Config) (s : State) (z x : T)
    (hm : cfg.mask = true) (ha : cfg.adjust = true) :
    ((track cfg (template cfg s z) x).fst = Except.ok
      { cls := T.rpnCls (T.neckApp (T.lastOf (T.backboneApp z)))
          (T.neckApp (T.lastOf (T.backboneApp x)))
        loc := T.rpnLoc (T.neckApp (T.lastOf (T.backboneApp z)))
          (T.neckApp (T.lastOf (T.backboneApp x)))
        mask := some (T.maskOut (T.neckApp (T.lastOf (T.backboneApp z)))
          (T.neckApp (T.lastOf (T.backboneApp x)))) })
    ∧ (s.zf = none →
        (track cfg s x).fst = Except.error (Err.attributeError PyName.zf)
        ∧ (track cfg s x).snd.xf = some (T.allButLast (T.backboneApp x))) := by
  constructor
  · simp [track, template, hm, ha]
  · intro hz
    constructor <;> simp [track, hm, ha, hz]

/-- Witness for claim C6 at a concrete configuration, state and inputs. -/
theorem track_requires_template_witness :
    ((track cfgBoth (template cfgBoth (initState cfgBoth) (T.inp 0)) (T.inp 1)).fst
      = Except.ok
        { cls := T.rpnCls (T.neckApp (T.lastOf (T.backboneApp (T.inp 0))))
            (T.neckApp (T.lastOf (T.backboneApp (T.inp 1))))
          loc := T.rpnLoc (T.neckApp (T.lastOf (T.backboneApp (T.inp 0))))
            (T.neckApp (T.lastOf (T.backboneApp (T.inp 1))))
          mask := some (T.maskOut (T.neckApp (T.lastOf (T.backboneApp (T.inp 0))))
            (T.neckApp (T.lastOf (T.backboneApp (T.inp 1))))) })
    ∧ ((track cfgBoth (initState cfgBoth) (T.inp 1)).fst
        = Except.error (Err.attributeError PyName.zf)
       ∧ (track cfgBoth (initState cfgBoth) (T.inp 1)).snd.xf
          = some (T.allButLast (T.backboneApp (T.inp 1)))) :=
  ⟨(track_requires_template cfgBoth (initState cfgBoth) (T.inp 0) (T.inp 1)
      rfl rfl).1,
   (track_requires_template cfgBoth (initState cfgBoth) (T.inp 0) (T.inp 1)
      rfl rfl).2 rfl⟩

/-- Claim C7, counterexample: at a state whose cached template embedding
and cached search features are distinct tensors, `mask_refine` disagrees
with the spec reading under which it computes the refined mask from the
cached template embedding and the correlation feature: the source passes
`self.xf` (the search features cached by `track`), not `self.zf`. -/
theorem mask_refine_not_from_template :
    mask_refine s7 5 = Except.ok (T.refineOut (T.inp 1) (T.inp 2) 5)
    ∧ mask_refine_spec s7 5 = Except.ok (T.refineOut (T.inp 0) (T.inp 2) 5)
    ∧ T.refineOut (T.inp 1) (T.inp 2) 5 ≠ T.refineOut (T.inp 0) (T.inp 2) 5 :=
  ⟨rfl, rfl, by decide⟩

/-- Claim C7, amended: in a model that owns a refine head (read first, as
the callee of the `refine_head(...)` call), after `template(z)` and a
completing `track(x)`, `mask_refine(pos)` computes its refined mask from
the search-region features `self.xf` cached by that `track` call together
with the mask correlation feature cached by the same call; the template
embedding enters only indirectly, inside the correlation feature that
`track` computed from it. -/
theorem mask_refine_uses_track_cache (cfg : Config) (s : State) (z x : T)
    (pos : Nat) (hm : cfg.mask = true) (ha : cfg.adjust = true)
    (hrh : s.modules.refine_head = true) :
    mask_refine (track cfg (template cfg s z) x).snd pos
      = Except.ok (T.refineOut
          (T.allButLast (T.backboneApp x))
          (T.maskCorr (T.neckApp (T.lastOf (T.backboneApp z)))
            (T.neckApp (T.lastOf (T.backboneApp x))))
          pos) := by
  simp [track, template, hm, ha, mask_refine, hrh]

/-- Witness for the amended claim C7 at concrete inputs. -/
theorem mask_refine_uses_track_cache_witness :
    mask_refine (track cfgBoth (template cfgBoth (initState cfgBoth) (T.inp 0))
        (T.inp 1)).snd 5
      = Except.ok (T.refineOut
          (T.allButLast (T.backboneApp (T.inp 1)))
          (T.maskCorr (T.neckApp (T.lastOf (T.backboneApp (T.inp 0))))
            (T.neckApp (T.lastOf (T.backboneApp (T.inp 1)))))
          5) :=
  mask_refine_uses_track_cache cfgBoth (initState cfgBoth) (T.inp 0) (T.inp 1)
    5 rfl rfl rfl

/-- Claim C8, counterexample: with both flags unset and no cached template
embedding, `track` fails — but at the read of the absent attribute
`self.zf`, which Python evaluates before the unbound local `xf_n` in the
rpn-head call, so the raised error is an `AttributeError`, not the
unbound-local error the claim asserts for every such call. -/
theorem track_no_template_attr_error :
    (track cfgNone (initState cfgNone) (T.inp 0)).fst
      = Except.error (Err.attributeError PyName.zf)
    ∧ Err.isUnboundLocal (Err.attributeError PyName.zf) = false :=
  ⟨rfl, rfl⟩

/-- Claim C8, amended: for every configuration lacking the mask flag or the
adjust flag, every call of `track` fails before producing its result
dictionary; the failure is the unbound-local error on `xf` when the adjust
flag is set (mask unset), the unbound-local error on `xf_n` when the adjust
flag is unset and `self.zf` is present, and the attribute error on the
earlier read of the absent `self.zf` otherwise. -/
theorem track_missing_flag_fails (cfg : Config) (s : State) (x : T)
    (h : cfg.mask = false ∨ cfg.adjust = false) :
    (track cfg s x).fst = Except.error
      (if cfg.adjust then Err.unboundLocal PyName.xf
       else if s.zf.isSome then Err.unboundLocal PyName.xf_n
       else Err.attributeError PyName.zf) := by
  cases ha : cfg.adjust
  · cases hz : s.zf <;> cases hm : cfg.mask <;> simp [track, ha, hz, hm]
  · have hm : cfg.mask = false := by
      rcases h with h | h
      · exact h
      · rw [h] at ha; cases ha
    simp [track, ha, hm]

/-- Witness for the amended claim C8 at a concrete configuration, state
and input. -/
theorem track_missing_flag_fails_witness :
    (track cfgNone sZf (T.inp 0)).fst = Except.error
      (if cfgNone.adjust then Err.unboundLocal PyName.xf
       else if sZf.zf.isSome then Err.unboundLocal PyName.xf_n
       else Err.attributeError PyName.zf) :=
  track_missing_flag_fails cfgNone sZf (T.inp 0) (Or.inl rfl)

/-- Claim C9: for every configuration with the mask flag set, every call of
`forward` raises the `TypeError` from `MASK_WEIGHT * None` before
returning, so training with the mask head enabled never yields the outputs
dictionary. -/
theorem forward_mask_enabled_raises (cfg : Config) (s : State) (d : TrainData)
    (hm : cfg.mask = true) :
    (forward cfg s d).fst = Except.error Err.typeError := by
  cases ha : cfg.adjust <;> simp [forward, hm, ha]

/-- Witness for claim C9 at a concrete configuration, state and batch. -/
theorem forward_mask_enabled_raises_witness :
    (forward cfgBoth (initState cfgBoth) dataEx).fst
      = Except.error Err.typeError :=
  forward_mask_enabled_raises cfgBoth (initState cfgBoth) dataEx rfl

/-- Claim C10: `forward` never modifies the cached template embedding
`self.zf` (it writes only `self.xf_refine` and `self.mask_corr_feature`),
and consequently a `track` call after `forward` produces the same value as
a `track` call before it. -/
theorem forward_preserves_template_embedding (cfg : Config) (s : State)
    (d : TrainData) (x : T) :
    (forward cfg s d).snd.zf = s.zf
    ∧ (track cfg (forward cfg s d).snd x).fst = (track cfg s x).fst := by
  have hzf : (forward cfg s d).snd.zf = s.zf := by
    cases hm : cfg.mask <;> cases ha : cfg.adjust <;> simp [forward, hm, ha]
  exact ⟨hzf, track_fst_congr_zf cfg (forward cfg s d).snd s x hzf⟩

end ModelBuilder
